import Mathlib

/-!
Verification of the in-memory Task Store Service (the Express
task-management API in `src/todo.js`): the task data model and the
list / create / assign operations with their validation, shallowly
embedded.

Modelling conventions:
* The collection is the value `tasks : List Task`, in insertion order;
  each route handler is a function `... → List Task → Resp × List Task`
  returning the HTTP-shaped response together with the new collection.
* Timestamps (`Date.now()` for the generated id, `new Date()` for
  `createdAt` / `updatedAt` — read at the same instant in a handler)
  are modelled as one natural number `now` passed explicitly.
* Request fields that may be absent are `Option String`; the validator
  layer (express-validator) coerces an absent field to the empty string
  before running a standard validator such as `isIn`, and `.trim()` is
  a sanitizer that rewrites the stored `title`.  Both behaviours are
  reproduced below.
-/

namespace TaskStore

/-- Model of JS `String.prototype.trim`: strip leading and trailing
whitespace (the inputs at stake are ASCII). -/
def jsTrim (s : String) : String :=
  ⟨((s.data.dropWhile Char.isWhitespace).reverse.dropWhile
      Char.isWhitespace).reverse⟩

/-- Model of JS `String.prototype.length` (code units; the inputs at
stake are ASCII, where this is the character count). -/
def jsLength (s : String) : Nat := s.data.length

/-- Model of JS `String.prototype.startsWith`. -/
def jsStartsWith (s pre : String) : Bool :=
  s.data.take pre.data.length == pre.data

/-- A task record.  The two seed records in the source carry no
`createdAt`/`updatedAt` fields, and `assign` adds `updatedAt` to a
record that lacked it, so both timestamps are optional. -/
structure Task where
  id : String
  title : String
  status : String
  assignee : Option String
  createdAt : Option Nat := none
  updatedAt : Option Nat := none
  deriving DecidableEq

/-- The first seed record of the source's `let tasks = [ ... ]`. -/
def seedTask1 : Task :=
  { id := "tsk-1", title := "Refactor auth module",
    status := "in-progress", assignee := some "dev-1" }

/-- The second seed record of the source's `let tasks = [ ... ]`. -/
def seedTask2 : Task :=
  { id := "tsk-2", title := "Write API documentation",
    status := "todo", assignee := none }

/-- The initial collection (`let tasks = [ ... ]` in the source). -/
def seedTasks : List Task := [seedTask1, seedTask2]

/-- `const findTask = (id) => tasks.find(t => t.id === id);` -/
def findTask (id : String) (tasks : List Task) : Option Task :=
  tasks.find? (fun t => t.id == id)

/-- `const validateAssignee = (assignee) => assignee && assignee.startsWith('dev-');`
A missing assignee and the empty string are falsy in JS. -/
def validateAssignee (assignee : Option String) : Bool :=
  match assignee with
  | none => false
  | some s => s != "" && jsStartsWith s "dev-"

/-- The status enumeration accepted by `isIn`. -/
def validStatuses : List String := ["todo", "in-progress", "done"]

/-- Message of the `title` check in `validateTaskInput`. -/
def titleMsg : String := "Title must be at least 5 characters"

/-- Message of the `status` check in `validateTaskInput`. -/
def statusMsg : String := "Invalid status"

/-- The `validateTaskInput` middleware chain:
`body('title').trim().isLength(min 5)` then
`body('status').isIn(['todo','in-progress','done'])`, collecting the
messages of all violated checks in chain order (`errors.array()`).
An absent field is coerced to `""` by the validator layer; neither
chain is marked optional, so both checks always run. -/
def validateTaskInput (title status : Option String) : List String :=
  (if jsLength (jsTrim (title.getD "")) < 5 then [titleMsg] else []) ++
  (if validStatuses.contains (status.getD "") then [] else [statusMsg])

/-- The HTTP-shaped responses the three routes can produce. -/
inductive Resp where
  | okList (tasks : List Task)
  | okTask (t : Task)
  | created (t : Task)
  | validationErrors (msgs : List String)
  | badRequest (msg : String)
  | notFound (msg : String)
  deriving DecidableEq

/-- The HTTP status code of a response. -/
def Resp.code : Resp → Nat
  | okList _ => 200
  | okTask _ => 200
  | created _ => 201
  | validationErrors _ => 400
  | badRequest _ => 400
  | notFound _ => 404

/-- `GET /api/tasks`: `status ? tasks.filter(t => t.status === status)
: [...tasks]`.  The empty string is falsy in JS, so an empty filter
behaves like an absent one. -/
def listOp (status : Option String) (tasks : List Task) :
    Resp × List Task :=
  match status with
  | some s =>
      if s != "" then
        (.okList (tasks.filter (fun t => t.status == s)), tasks)
      else (.okList tasks, tasks)
  | none => (.okList tasks, tasks)

/-- `POST /api/tasks`: run `validateTaskInput`; on failure respond
`400 { errors }`; on success build the record
(`id: tsk-<Date.now()>`, the sanitized (trimmed) title, the
destructuring default `status = 'todo'`, `assignee: null`,
`createdAt` now), push it and respond `201`. -/
def createOp (title status : Option String) (now : Nat)
    (tasks : List Task) : Resp × List Task :=
  let errs := validateTaskInput title status
  if errs.isEmpty then
    let t : Task :=
      { id := "tsk-" ++ toString now
        title := jsTrim (title.getD "")
        status := status.getD "todo"
        assignee := none
        createdAt := some now }
    (.created t, tasks ++ [t])
  else (.validationErrors errs, tasks)

/-- The in-place mutation of the record `find` returned: rewrite the
first task whose id matches. -/
def setFirst (id : String) (f : Task → Task) : List Task → List Task
  | [] => []
  | t :: ts => if t.id == id then f t :: ts else t :: setFirst id f ts

/-- The field update `assign` performs on the found record:
`task.assignee = assignee; task.updatedAt = new Date().toISOString();` -/
def applyAssign (assignee : Option String) (now : Nat) (t : Task) : Task :=
  { t with assignee := assignee, updatedAt := some now }

/-- `PATCH /api/tasks/:id/assign`: reject an invalid assignee with
`400`, an unknown id with `404`; otherwise mutate the found record in
place and respond `200` with it. -/
def assignOp (id : String) (assignee : Option String) (now : Nat)
    (tasks : List Task) : Resp × List Task :=
  if validateAssignee assignee then
    match findTask id tasks with
    | none => (.notFound "Task not found", tasks)
    | some t =>
        (.okTask (applyAssign assignee now t),
         setFirst id (applyAssign assignee now) tasks)
  else (.badRequest "Invalid assignee format", tasks)

/-- One client operation against the store. -/
inductive Op where
  | list (status : Option String)
  | create (title status : Option String) (now : Nat)
  | assign (id : String) (assignee : Option String) (now : Nat)
  deriving DecidableEq

/-- Dispatch an operation to its handler. -/
def applyOp : Op → List Task → Resp × List Task
  | .list s, tasks => listOp s tasks
  | .create t s now, tasks => createOp t s now tasks
  | .assign i a now, tasks => assignOp i a now tasks

/-- The collection after an operation (its response discarded). -/
def step (tasks : List Task) (op : Op) : List Task :=
  (applyOp op tasks).2

/-- The ids currently in the collection are pairwise distinct. -/
def distinctIds (tasks : List Task) : Prop :=
  (tasks.map Task.id).Nodup

instance (tasks : List Task) : Decidable (distinctIds tasks) :=
  List.nodupDecidable _

/-- Whether an operation's generated id (if any) is absent from the
collection: a `create` at time `now` mints `tsk-<now>`. -/
def freshFor (op : Op) (tasks : List Task) : Bool :=
  match op with
  | .create _ _ now => tasks.all (fun t => t.id != "tsk-" ++ toString now)
  | _ => true

/-! ### Helper lemmas -/

/-- `list` hands back the collection it was given as the new state. -/
theorem listOp_snd (status : Option String) (tasks : List Task) :
    (listOp status tasks).2 = tasks := by
  cases status with
  | none => rfl
  | some s =>
      simp only [listOp]
      split <;> rfl

/-- `list` always responds with some array (HTTP 200). -/
theorem listOp_shape (status : Option String) (tasks : List Task) :
    ∃ l, (listOp status tasks).1 = Resp.okList l := by
  cases status with
  | none => exact ⟨tasks, rfl⟩
  | some s =>
      simp only [listOp]
      split
      · exact ⟨_, rfl⟩
      · exact ⟨tasks, rfl⟩

/-- Rewriting the first match with an id-preserving function leaves the
sequence of ids unchanged. -/
theorem setFirst_map_id (id : String) (f : Task → Task)
    (hf : ∀ t, (f t).id = t.id) :
    ∀ l : List Task, (setFirst id f l).map Task.id = l.map Task.id := by
  intro l
  induction l with
  | nil => rfl
  | cons t ts ih =>
      simp only [setFirst]
      split
      · simp [hf]
      · simp [ih]

/-- After rewriting the first match, `find` returns the rewritten
record, provided the rewrite preserves the id. -/
theorem findTask_setFirst_self (id : String) (f : Task → Task)
    (hf : ∀ t, (f t).id = t.id) :
    ∀ (l : List Task) (t : Task), findTask id l = some t →
      findTask id (setFirst id f l) = some (f t) := by
  intro l
  induction l with
  | nil => intro t h; exact absurd h (by simp [findTask])
  | cons u us ih =>
      intro t h
      by_cases hu : (u.id == id) = true
      · have ht : u = t := by
          simpa [findTask, List.find?_cons, hu] using h
        subst ht
        have hfu : ((f u).id == id) = true := by
          rw [hf u]; exact hu
        simp [setFirst, hu, findTask, List.find?_cons, hfu]
      · have h' : findTask id us = some t := by
          simpa [findTask, List.find?_cons, hu] using h
        have := ih t h'
        simpa [setFirst, hu, findTask, List.find?_cons] using this

/-- `setFirst` is `List.set` at the index where `find?` hits. -/
theorem setFirst_eq_set (id : String) (f : Task → Task) :
    ∀ (l : List Task) (t : Task), findTask id l = some t →
      ∃ i : Nat, l.get? i = some t ∧ t.id = id ∧
        setFirst id f l = l.set i (f t) := by
  intro l
  induction l with
  | nil => intro t h; exact absurd h (by simp [findTask])
  | cons u us ih =>
      intro t h
      by_cases hu : (u.id == id) = true
      · have ht : u = t := by
          simpa [findTask, List.find?_cons, hu] using h
        subst ht
        refine ⟨0, by simp, by simpa using hu, ?_⟩
        simp [setFirst, hu]
      · have h' : findTask id us = some t := by
          simpa [findTask, List.find?_cons, hu] using h
        obtain ⟨i, hget, hid, hset⟩ := ih t h'
        refine ⟨i + 1, by simpa using hget, hid, ?_⟩
        simp [setFirst, hu, hset]

/-! ### Claim theorems -/

/-- C1: the claim says `create` with a valid title and the status
argument omitted succeeds with status `todo`.  The code rejects it: the
`status` chain of `validateTaskInput` is not marked optional, so the
absent field is checked by `isIn` (coerced to `""`) and fails, although
the route's own documentation declares `status` optional with default
`todo` and the handler carries a (dead) `status = 'todo'` default.
Evaluated at the claim's own example: `create("Refactor module")` with
no status is answered `400 { errors: ['Invalid status'] }` and the
collection is unchanged. -/
theorem c1_create_without_status_is_rejected :
    createOp (some "Refactor module") none 100 seedTasks
      = (Resp.validationErrors [statusMsg], seedTasks) ∧
    Resp.code (createOp (some "Refactor module") none 100 seedTasks).1
      = 400 := by
  decide

/-- C3: a `create` whose input violates both the title constraint and
the status constraint is answered with a validation error that lists
both field messages, not only the first one found. -/
theorem c3_all_violations_listed (title status : Option String)
    (now : Nat) (tasks : List Task)
    (ht : jsLength (jsTrim (title.getD "")) < 5)
    (hs : (status.getD "") ∉ validStatuses) :
    ∃ msgs, (createOp title status now tasks).1
        = Resp.validationErrors msgs ∧
      titleMsg ∈ msgs ∧ statusMsg ∈ msgs := by
  have hc : validStatuses.contains (status.getD "") = false := by
    cases h : validStatuses.contains (status.getD "") with
    | false => rfl
    | true => exact absurd (List.elem_iff.mp h) hs
  have he : validateTaskInput title status = [titleMsg, statusMsg] := by
    simp [validateTaskInput, if_pos ht, hc, hs]
  refine ⟨[titleMsg, statusMsg], ?_, by simp, by simp⟩
  simp [createOp, he]

/-- C3 witness: the spec's example `create("ok", "bogus")`. -/
theorem c3_witness :
    ∃ msgs, (createOp (some "ok") (some "bogus") 5 seedTasks).1
        = Resp.validationErrors msgs ∧
      titleMsg ∈ msgs ∧ statusMsg ∈ msgs :=
  c3_all_violations_listed (some "ok") (some "bogus") 5 seedTasks
    (by decide) (by decide)

/-- C5: `assign` answers an invalid assignee with a 400 validation
error and a valid assignee aimed at an id absent from the collection
with a 404 not-found error — two distinct responses. -/
theorem c5_assign_error_discrimination (id : String)
    (assignee : Option String) (now : Nat) (tasks : List Task) :
    (validateAssignee assignee = false →
      (assignOp id assignee now tasks).1
          = Resp.badRequest "Invalid assignee format" ∧
      Resp.code (assignOp id assignee now tasks).1 = 400) ∧
    (validateAssignee assignee = true → findTask id tasks = none →
      (assignOp id assignee now tasks).1
          = Resp.notFound "Task not found" ∧
      Resp.code (assignOp id assignee now tasks).1 = 404) := by
  constructor
  · intro hv
    simp [assignOp, hv, Resp.code]
  · intro hv hft
    simp [assignOp, hv, hft, Resp.code]

/-- C5 witness: `assign("tsk-1", "not-a-dev")` is a 400, and
`assign("missing-id", "dev-9")` is a 404, on the seed collection. -/
theorem c5_witness :
    ((assignOp "tsk-1" (some "not-a-dev") 9 seedTasks).1
        = Resp.badRequest "Invalid assignee format" ∧
      Resp.code (assignOp "tsk-1" (some "not-a-dev") 9 seedTasks).1
        = 400) ∧
    ((assignOp "missing-id" (some "dev-9") 9 seedTasks).1
        = Resp.notFound "Task not found" ∧
      Resp.code (assignOp "missing-id" (some "dev-9") 9 seedTasks).1
        = 404) :=
  ⟨(c5_assign_error_discrimination "tsk-1" (some "not-a-dev") 9
      seedTasks).1 (by decide),
   (c5_assign_error_discrimination "missing-id" (some "dev-9") 9
      seedTasks).2 (by decide) (by decide)⟩

/-- C8: `list` leaves the collection untouched, and two consecutive
`list` calls with the same filter and no intervening mutation return
identical results. -/
theorem c8_list_idempotent (tasks : List Task)
    (status : Option String) :
    (listOp status tasks).2 = tasks ∧
    listOp status ((listOp status tasks).2) = listOp status tasks := by
  refine ⟨listOp_snd status tasks, ?_⟩
  rw [listOp_snd status tasks]

/-- C10: the assignee check accepts every string starting with the four
characters of the dev prefix, including the bare prefix with an empty
id suffix, so assigning an existing task to that bare prefix succeeds
rather than being answered with a validation error. -/
theorem c10_bare_dev_prefix_accepted (s id : String) (now : Nat)
    (tasks : List Task) (t : Task) :
    (jsStartsWith s "dev-" = true → validateAssignee (some s) = true) ∧
    validateAssignee (some "dev-") = true ∧
    (findTask id tasks = some t →
      (assignOp id (some "dev-") now tasks).1
          = Resp.okTask (applyAssign (some "dev-") now t) ∧
      (applyAssign (some "dev-") now t).assignee = some "dev-") := by
  refine ⟨?_, by decide, ?_⟩
  · intro h
    have hne : s ≠ "" := by
      intro he
      subst he
      exact absurd h (by decide)
    simp [validateAssignee, h, bne_iff_ne.mpr hne]
  · intro hft
    have hv : validateAssignee (some "dev-") = true := by decide
    exact ⟨by simp [assignOp, hv, hft], rfl⟩

/-- C10 witness: `"dev-"` passes the check and `assign("tsk-1", "dev-")`
succeeds on the seed collection. -/
theorem c10_witness :
    validateAssignee (some "dev-") = true ∧
    ((assignOp "tsk-1" (some "dev-") 3 seedTasks).1
        = Resp.okTask (applyAssign (some "dev-") 3 seedTask1) ∧
      (applyAssign (some "dev-") 3 seedTask1).assignee
        = some "dev-") :=
  ⟨(c10_bare_dev_prefix_accepted "dev-" "tsk-1" 3 seedTasks
      seedTask1).2.1,
   (c10_bare_dev_prefix_accepted "dev-" "tsk-1" 3 seedTasks
      seedTask1).2.2 (by decide)⟩


/-- C2 counterexample: ids come from `Date.now()`, so two successful
creates in the same millisecond mint the same id — the second create
succeeds (201) yet duplicates the id already in the collection. -/
theorem c2_counterexample :
    Resp.code (createOp (some "Second sample task") (some "todo") 7
        (createOp (some "First sample task") (some "todo") 7 []).2).1
      = 201 ∧
    ((createOp (some "Second sample task") (some "todo") 7
        (createOp (some "First sample task") (some "todo") 7 []).2).2).map
        Task.id = ["tsk-7", "tsk-7"] ∧
    ¬ distinctIds (createOp (some "Second sample task") (some "todo") 7
        (createOp (some "First sample task") (some "todo") 7 []).2).2 := by
  decide

/-- C2 amended: ids stay pairwise distinct across every operation
provided each create's generated id `tsk-<timestamp>` is not already
present (in particular when all create timestamps are distinct and
avoid the seed ids); the code never checks this itself. -/
theorem c2_amended_fresh_creates_keep_ids_distinct
    (tasks : List Task) (op : Op)
    (hd : distinctIds tasks) (hf : freshFor op tasks = true) :
    distinctIds (step tasks op) := by
  cases op with
  | list s =>
      simpa [step, applyOp, listOp_snd] using hd
  | create title status now =>
      simp only [freshFor] at hf
      have hfresh : ∀ t ∈ tasks, t.id ≠ "tsk-" ++ toString now := by
        intro t ht
        exact bne_iff_ne.mp (List.all_eq_true.mp hf t ht)
      by_cases he : (validateTaskInput title status).isEmpty = true
      · simp only [step, applyOp, createOp, he, if_true]
        simp only [distinctIds, List.map_append, List.map_cons,
          List.map_nil]
        rw [List.nodup_append]
        refine ⟨hd, List.nodup_singleton _, ?_⟩
        rw [List.disjoint_singleton]
        intro hmem
        obtain ⟨u, hu, hid⟩ := List.mem_map.mp hmem
        exact hfresh u hu hid
      · simpa [step, applyOp, createOp, he] using hd
  | assign i a now =>
      by_cases hv : validateAssignee a = true
      · cases hft : findTask i tasks with
        | none => simpa [step, applyOp, assignOp, hv, hft] using hd
        | some t =>
            have hmap := setFirst_map_id i (applyAssign a now)
              (fun _ => rfl) tasks
            simp only [step, applyOp, assignOp, hv, hft, if_true]
            simpa [distinctIds, hmap] using hd
      · simpa [step, applyOp, assignOp, hv] using hd

/-- C2 witness: a fresh create on the seed collection keeps ids
distinct. -/
theorem c2_witness :
    distinctIds (step seedTasks
      (Op.create (some "Sample task one") (some "todo") 7)) :=
  c2_amended_fresh_creates_keep_ids_distinct seedTasks
    (Op.create (some "Sample task one") (some "todo") 7)
    (by decide) (by decide)

/-- C4: every operation that is answered with an error status (400 or
404) leaves the collection exactly as it was: no task is added,
removed, or mutated on any error path. -/
theorem c4_errors_leave_collection_unchanged (op : Op)
    (tasks : List Task)
    (h : 400 ≤ Resp.code (applyOp op tasks).1) :
    (applyOp op tasks).2 = tasks := by
  cases op with
  | list s => exact listOp_snd s tasks
  | create title status now =>
      by_cases he : (validateTaskInput title status).isEmpty = true
      · exfalso
        have hc : Resp.code (applyOp (Op.create title status now)
            tasks).1 = 201 := by
          simp [applyOp, createOp, he, Resp.code]
        rw [hc] at h
        omega
      · simp [applyOp, createOp, he]
  | assign i a now =>
      by_cases hv : validateAssignee a = true
      · cases hft : findTask i tasks with
        | none => simp [applyOp, assignOp, hv, hft]
        | some t =>
            exfalso
            have hc : Resp.code (applyOp (Op.assign i a now) tasks).1
                = 200 := by
              simp [applyOp, assignOp, hv, hft, Resp.code]
            rw [hc] at h
            omega
      · simp [applyOp, assignOp, hv]

/-- C4 witness: the failing create of the spec's example leaves the
seed collection unchanged. -/
theorem c4_witness :
    400 ≤ Resp.code (applyOp (Op.create (some "ok") none 3)
        seedTasks).1 ∧
    (applyOp (Op.create (some "ok") none 3) seedTasks).2 = seedTasks :=
  ⟨by decide,
   c4_errors_leave_collection_unchanged (Op.create (some "ok") none 3)
     seedTasks (by decide)⟩

/-- C6: when the assignee is valid and a task with the id exists,
`assign` succeeds: the response carries the updated record, the stored
record found under the id is that same updated record, its `assignee`
is the given string, its `updatedAt` is refreshed to the current time,
`createdAt` is untouched, and whenever the assign happens later than
the creation the refreshed `updatedAt` is later than `createdAt`. -/
theorem c6_assign_success (id a : String) (now : Nat)
    (tasks : List Task) (t : Task)
    (hv : validateAssignee (some a) = true)
    (hf : findTask id tasks = some t) :
    (assignOp id (some a) now tasks).1
        = Resp.okTask (applyAssign (some a) now t) ∧
    findTask id ((assignOp id (some a) now tasks).2)
        = some (applyAssign (some a) now t) ∧
    (applyAssign (some a) now t).assignee = some a ∧
    (applyAssign (some a) now t).updatedAt = some now ∧
    (applyAssign (some a) now t).createdAt = t.createdAt ∧
    (∀ c : Nat, t.createdAt = some c → c < now →
      ∃ u : Nat, (applyAssign (some a) now t).updatedAt = some u ∧
        c < u) := by
  refine ⟨?_, ?_, rfl, rfl, rfl, ?_⟩
  · simp [assignOp, hv, hf]
  · have hsnd : (assignOp id (some a) now tasks).2
        = setFirst id (applyAssign (some a) now) tasks := by
      simp [assignOp, hv, hf]
    rw [hsnd]
    exact findTask_setFirst_self id (applyAssign (some a) now)
      (fun _ => rfl) tasks t hf
  · intro c hc hlt
    exact ⟨now, rfl, hlt⟩

/-- C6 witness: create at time 10, assign `dev-9` at time 20; the
response carries the record with the new assignee and an `updatedAt`
later than `createdAt`. -/
theorem c6_witness :
    (assignOp "tsk-10" (some "dev-9") 20
        (createOp (some "Refactor module") (some "todo") 10 []).2).1
      = Resp.okTask (applyAssign (some "dev-9") 20
          { id := "tsk-10", title := "Refactor module",
            status := "todo", assignee := none,
            createdAt := some 10, updatedAt := none }) ∧
    (∃ u : Nat, (applyAssign (some "dev-9") 20
        { id := "tsk-10", title := "Refactor module",
          status := "todo", assignee := none,
          createdAt := some 10, updatedAt := none }).updatedAt
        = some u ∧ 10 < u) := by
  have h := c6_assign_success "tsk-10" "dev-9" 20
      (createOp (some "Refactor module") (some "todo") 10 []).2
      { id := "tsk-10", title := "Refactor module", status := "todo",
        assignee := none, createdAt := some 10, updatedAt := none }
      (by decide) (by decide)
  exact ⟨h.1, h.2.2.2.2.2 10 rfl (by decide)⟩
/-- C7 counterexample: the empty string is a filter value outside the
three enumerated statuses, yet `list("")` returns the full (non-empty)
seed collection, not the empty list — JS treats the empty query value
as falsy and skips filtering. -/
theorem c7_counterexample :
    ("" ∉ validStatuses) ∧ seedTasks ≠ [] ∧
    (∀ t ∈ seedTasks, t.status ∈ validStatuses) ∧
    (listOp (some "") seedTasks).1 = Resp.okList seedTasks ∧
    (listOp (some "") seedTasks).1 ≠ Resp.okList [] := by
  decide

/-- C7 amended: `list` with no filter returns the full collection in
insertion order; with a non-empty filter it returns exactly the tasks
of that status, in order; it always answers 200 and leaves the
collection unchanged; an empty-string filter is treated as absent and
returns the full collection; and a non-empty filter outside the three
enumerated statuses returns the empty list whenever every stored
status is one of the three. -/
theorem c7_amended_list_semantics (tasks : List Task)
    (status : Option String) :
    (listOp none tasks).1 = Resp.okList tasks ∧
    (listOp status tasks).2 = tasks ∧
    Resp.code (listOp status tasks).1 = 200 ∧
    (∀ s : String, s ≠ "" →
      (listOp (some s) tasks).1
          = Resp.okList (tasks.filter (fun t => t.status == s))) ∧
    (listOp (some "") tasks).1 = Resp.okList tasks ∧
    (∀ s : String, s ≠ "" → s ∉ validStatuses →
      (∀ t ∈ tasks, t.status ∈ validStatuses) →
      (listOp (some s) tasks).1 = Resp.okList []) := by
  refine ⟨rfl, listOp_snd status tasks, ?_, ?_, ?_, ?_⟩
  · obtain ⟨l, hl⟩ := listOp_shape status tasks
    rw [hl]
    rfl
  · intro s hs
    simp [listOp, bne_iff_ne.mpr hs]
  · simp [listOp]
  · intro s hs hnot hall
    have hfil : tasks.filter (fun t => t.status == s) = [] := by
      apply List.filter_eq_nil_iff.mpr
      intro t ht hbeq
      have hmem := hall t ht
      rw [beq_iff_eq.mp hbeq] at hmem
      exact hnot hmem
    simp [listOp, bne_iff_ne.mpr hs, hfil]

/-- C7 witness: a non-empty unrecognized filter on the seed collection
yields the empty list. -/
theorem c7_witness :
    (listOp (some "bogus") seedTasks).1 = Resp.okList [] :=
  (c7_amended_list_semantics seedTasks (some "bogus")).2.2.2.2.2
    "bogus" (by decide) (by decide) (by decide)

/-- C9: a successful `assign` only rewrites the targeted record, and
there only the `assignee` and `updatedAt` fields: the collection keeps
its length and order, every position other than the target's is
unchanged, and the target keeps its `id`, `title`, `status` and
`createdAt`. -/
theorem c9_assign_frame (id a : String) (now : Nat)
    (tasks : List Task) (t : Task)
    (hv : validateAssignee (some a) = true)
    (hf : findTask id tasks = some t) :
    ((assignOp id (some a) now tasks).2).length = tasks.length ∧
    ∃ i : Nat, tasks.get? i = some t ∧ t.id = id ∧
      (assignOp id (some a) now tasks).2
          = tasks.set i (applyAssign (some a) now t) ∧
      (∀ j : Nat, j ≠ i →
        ((assignOp id (some a) now tasks).2).get? j = tasks.get? j) ∧
      (applyAssign (some a) now t).id = t.id ∧
      (applyAssign (some a) now t).title = t.title ∧
      (applyAssign (some a) now t).status = t.status ∧
      (applyAssign (some a) now t).createdAt = t.createdAt := by
  have hsnd : (assignOp id (some a) now tasks).2
      = setFirst id (applyAssign (some a) now) tasks := by
    simp [assignOp, hv, hf]
  obtain ⟨i, hget, hid, hset⟩ :=
    setFirst_eq_set id (applyAssign (some a) now) tasks t hf
  constructor
  · rw [hsnd, hset, List.length_set]
  · refine ⟨i, hget, hid, by rw [hsnd, hset], ?_, rfl, rfl, rfl, rfl⟩
    intro j hj
    rw [hsnd, hset]
    simp [List.get?_eq_getElem?, List.getElem?_set_ne (Ne.symm hj)]

/-- C9 witness: assigning `dev-7` to the second seed task at time 5
touches only that record. -/
theorem c9_witness :
    ((assignOp "tsk-2" (some "dev-7") 5 seedTasks).2).length
        = seedTasks.length ∧
    ∃ i : Nat,
      seedTasks.get? i = some seedTask2 ∧
      seedTask2.id = "tsk-2" ∧
      (assignOp "tsk-2" (some "dev-7") 5 seedTasks).2
          = seedTasks.set i (applyAssign (some "dev-7") 5 seedTask2) ∧
      (∀ j : Nat, j ≠ i →
        ((assignOp "tsk-2" (some "dev-7") 5 seedTasks).2).get? j
            = seedTasks.get? j) ∧
      (applyAssign (some "dev-7") 5 seedTask2).id = seedTask2.id ∧
      (applyAssign (some "dev-7") 5 seedTask2).title
          = seedTask2.title ∧
      (applyAssign (some "dev-7") 5 seedTask2).status
          = seedTask2.status ∧
      (applyAssign (some "dev-7") 5 seedTask2).createdAt
          = seedTask2.createdAt :=
  c9_assign_frame "tsk-2" "dev-7" 5 seedTasks seedTask2
    (by decide) (by decide)

end TaskStore
